import Mathlib

/-!
Verification of the PodMate application core (src/podmate.py).

The development shallowly embeds the repository's own logic:
* the credential store (`register_user`, `authenticate_user`, `hash_password`,
  `verify_password`) over an explicit database state;
* the podcast record store (`save_podcast`, `get_user_podcasts`);
* the podcast-generation pipeline body of `show_main_app` (MIME sniffing,
  size bound, loader selection, summarization-strategy switch, primary/fallback
  text-to-speech, persistence, session list, temp-file cleanup), with every
  external collaborator (PDF loader, summarizer, the two TTS providers, the
  SQLite insert outcome) supplied as an oracle environment.

bcrypt is an external library; it is modelled as an ideal salted one-way
function: `bcryptHashpw` stores the salt together with an injective digest of
the password, and `bcryptCheckpw` recomputes with the stored salt and compares,
exactly the call pattern of `hash_password` / `verify_password` in the source.
-/

namespace Podmate

/-- Model of a bcrypt hash string: it carries its salt and a digest.
The digest of an ideal injective one-way function is modelled by the
password itself. -/
structure BcryptHash where
  salt : Nat
  digest : String
deriving DecidableEq, Repr

/-- Model of `bcrypt.hashpw(password, salt)`. -/
def bcryptHashpw (password : String) (salt : Nat) : BcryptHash :=
  { salt := salt, digest := password }

/-- Model of `bcrypt.checkpw(password, hashed)`: recompute with the stored
salt and compare. -/
def bcryptCheckpw (password : String) (hashed : BcryptHash) : Bool :=
  (bcryptHashpw password hashed.salt).digest == hashed.digest

/-- `hash_password` (src/podmate.py lines 61-65): hash with a fresh salt.
The fresh salt produced by `bcrypt.gensalt()` is passed explicitly. -/
def hash_password (password : String) (salt : Nat) : BcryptHash :=
  bcryptHashpw password salt

/-- `verify_password` (src/podmate.py lines 67-69). -/
def verify_password (password : String) (hashed : BcryptHash) : Bool :=
  bcryptCheckpw password hashed

/-- A row of the `users` table (src/podmate.py lines 33-40). -/
structure UserRow where
  id : Nat
  username : String
  password : BcryptHash
  created_at : Nat
deriving DecidableEq, Repr

/-- A row of the `podcasts` table (src/podmate.py lines 43-53). -/
structure PodcastRow where
  id : Nat
  user_id : Nat
  title : String
  summary : String
  audio_path : String
  created_at : Nat
deriving DecidableEq, Repr

/-- The SQLite database state: the two tables plus the AUTOINCREMENT
counters. -/
structure DB where
  users : List UserRow
  podcasts : List PodcastRow
  nextUserId : Nat
  nextPodcastId : Nat
deriving DecidableEq, Repr

/-- `register_user` (src/podmate.py lines 71-89): INSERT into `users`.
The UNIQUE constraint on `username` raises `IntegrityError` when the username
is already present, which the function turns into
`(False, "Username already exists")`; on success the row is committed with the
next AUTOINCREMENT id and the function returns
`(True, "Registration successful")`.  `salt` is the fresh salt drawn inside
`hash_password`, `now` the CURRENT_TIMESTAMP default. -/
def register_user (db : DB) (username password : String) (salt now : Nat) :
    DB × Bool × String :=
  if db.users.any (fun r => r.username == username) then
    (db, false, "Username already exists")
  else
    ({ db with
        users := db.users ++
          [{ id := db.nextUserId, username := username,
             password := hash_password password salt, created_at := now }],
        nextUserId := db.nextUserId + 1 },
     true, "Registration successful")

/-- `authenticate_user` (src/podmate.py lines 91-102):
`SELECT id, password FROM users WHERE username = ?` (at most one row by the
UNIQUE constraint; `fetchone` is the first match), then `verify_password`. -/
def authenticate_user (db : DB) (username password : String) :
    Bool × Option Nat :=
  match db.users.find? (fun r => r.username == username) with
  | some r => if verify_password password r.password then (true, some r.id) else (false, none)
  | none => (false, none)

/-- `save_podcast` (src/podmate.py lines 107-123): INSERT into `podcasts`;
any exception from the insert (`raises`) is caught, shown with `st.error`,
and turned into `False` with the database unchanged. -/
def save_podcast (db : DB) (raises : Bool) (user_id : Nat)
    (title summary audio_path : String) (now : Nat) : DB × Bool :=
  if raises then (db, false)
  else
    ({ db with
        podcasts := db.podcasts ++
          [{ id := db.nextPodcastId, user_id := user_id, title := title,
             summary := summary, audio_path := audio_path, created_at := now }],
        nextPodcastId := db.nextPodcastId + 1 },
     true)

/-- The dictionary produced per row by `get_user_podcasts`
(src/podmate.py lines 138-146): `user_id` is not part of the projection. -/
structure PodcastView where
  title : String
  summary : String
  audio : String
  created_at : Nat
deriving DecidableEq, Repr

/-- Projection of a `podcasts` row to the returned dictionary. -/
def podcastView (r : PodcastRow) : PodcastView :=
  { title := r.title, summary := r.summary, audio := r.audio_path,
    created_at := r.created_at }

/-- Descending order on creation time, the `ORDER BY created_at DESC` of
src/podmate.py line 131. -/
def newestFirst (a b : PodcastView) : Prop :=
  b.created_at ≤ a.created_at

instance : DecidableRel newestFirst := fun a b =>
  Nat.decLe b.created_at a.created_at

instance : IsTotal PodcastView newestFirst :=
  ⟨fun a b => Nat.le_total b.created_at a.created_at⟩

instance : IsTrans PodcastView newestFirst :=
  ⟨fun _ _ _ h h' => Nat.le_trans h' h⟩

/-- `get_user_podcasts` (src/podmate.py lines 125-146):
`SELECT title, summary, audio_path, created_at FROM podcasts
 WHERE user_id = ? ORDER BY created_at DESC`. -/
def get_user_podcasts (db : DB) (user_id : Nat) : List PodcastView :=
  List.insertionSort newestFirst
    ((db.podcasts.filter (fun r => r.user_id == user_id)).map podcastView)

/-- Model of Python `str.split()` with no argument: the number of maximal
whitespace-free runs.  The Boolean argument records whether the previous
character was inside a word. -/
def pyWordCountAux : List Char → Bool → Nat
  | [], _ => 0
  | c :: cs, inWord =>
    if c.isWhitespace then pyWordCountAux cs false
    else (if inWord then 0 else 1) + pyWordCountAux cs true

/-- `len(text_content.split())` of src/podmate.py line 404. -/
def pyWordCount (s : String) : Nat :=
  pyWordCountAux s.data false

/-- Model of Python `str.endswith(suffix)`. -/
def pyEndsWith (s suffix : String) : Bool :=
  suffix.data.isSuffixOf s.data

/-- Fuel-indexed scan modelling Python `str.replace(pat, rep)`: replace every
non-overlapping occurrence of `pat`, left to right, resuming after the
replacement.  The fuel starts at the length of the scanned list, which the
scan never exhausts. -/
def pyReplaceAux (pat rep : List Char) : Nat → List Char → List Char
  | _, [] => []
  | 0, l => l
  | fuel + 1, c :: cs =>
    if pat ≠ [] ∧ (c :: cs).take pat.length = pat then
      rep ++ pyReplaceAux pat rep fuel (cs.drop (pat.length - 1))
    else
      c :: pyReplaceAux pat rep fuel cs

/-- Python `s.replace(pat, rep)` (src/podmate.py line 440). -/
def pyReplace (s pat rep : String) : String :=
  { data := pyReplaceAux pat.data rep.data s.data.length s.data }

/-- The loader dispatch of src/podmate.py lines 387-394: `PyPDFLoader` for a
filename ending in `.pdf`, a direct text read otherwise. -/
inductive Loader
  | pdfLoader
  | directRead
deriving DecidableEq, Repr

/-- Loader selection: `uploaded_file.name.endswith(".pdf")`
(src/podmate.py line 387). -/
def selectLoader (name : String) : Loader :=
  if pyEndsWith name ".pdf" then Loader.pdfLoader else Loader.directRead

/-- The `chain_type` passed to `load_summarize_chain`
(src/podmate.py lines 406-409). -/
inductive ChainType
  | stuff
  | mapReduce
deriving DecidableEq, Repr

/-- The MIME acceptance test of src/podmate.py line 367 on the content-sniffed
type returned by `magic.from_buffer`. -/
def mimeAccepted (mime : String) : Bool :=
  mime == "application/pdf" || mime == "text/plain"

/-- `os.path.join("audio_files", f"{username}_{timestamp}.wav")`
(src/podmate.py lines 417-422). -/
def audioWavPath (username timestamp : String) : String :=
  "audio_files/" ++ username ++ "_" ++ timestamp ++ ".wav"

/-- One upload event on the podcast-generator tab. -/
structure PipelineInput where
  fileName : String
  sniffedMime : String
  sizeBytes : Nat
  generateClicked : Bool
deriving DecidableEq, Repr

/-- Oracle outcomes of the external collaborators for one invocation:
`none` means the corresponding call raised. -/
structure Env where
  pdfExtract : Option String
  txtRead : Option String
  summarize : Option String
  primaryTTS : Bool
  fallbackTTS : Bool
  saveRaises : Bool
  timestamp : String
deriving DecidableEq, Repr

/-- An entry of `st.session_state.session_podcasts`
(src/podmate.py line 450). -/
structure SessionEntry where
  title : String
  summary : String
  audio : String
deriving DecidableEq, Repr

/-- Observable outcome of one run of the podcast-generator tab body. -/
structure Outcome where
  dbAfter : DB
  sessionAfter : List SessionEntry
  tempCreated : Bool
  tempDeleted : Bool
  mimeRejected : Bool := false
  sizeRejected : Bool := false
  loaderUsed : Option Loader := none
  summarizerCalled : Bool := false
  usedChain : Option ChainType := none
  primaryTTSCalls : Nat := 0
  fallbackTTSCalls : Nat := 0
  primaryInput : Option String := none
  fallbackInput : Option String := none
  audioPlayed : Option String := none
  savedPath : Option String := none
  successReported : Bool := false
  errorReported : Bool := false
  persistErrorShown : Bool := false
deriving DecidableEq, Repr

/-- The text produced by the selected loader: `PyPDFLoader(...).load()` joined,
or `open(file_path).read()` (src/podmate.py lines 387-394). -/
def extractOf (env : Env) : Loader → Option String
  | Loader.pdfLoader => env.pdfExtract
  | Loader.directRead => env.txtRead

/-- Tail of the successful-synthesis path (src/podmate.py lines 443-451):
play the audio, report success, `save_podcast` (whose failure is only
displayed), append to the session list; the `finally` block then removes the
temp file. -/
def finishSuccess (db : DB) (session : List SessionEntry)
    (user_id now : Nat) (title : String) (loader : Loader) (chain : ChainType)
    (summary audioPath : String) (fbCalls : Nat) (fbInput : Option String)
    (saveRaises : Bool) : Outcome :=
  let saved := save_podcast db saveRaises user_id title summary audioPath now
  { dbAfter := saved.1,
    sessionAfter := session ++
      [{ title := title, summary := summary, audio := audioPath }],
    tempCreated := true, tempDeleted := true,
    loaderUsed := some loader, summarizerCalled := true,
    usedChain := some chain,
    primaryTTSCalls := 1, fallbackTTSCalls := fbCalls,
    primaryInput := some summary, fallbackInput := fbInput,
    audioPlayed := some audioPath, savedPath := some audioPath,
    successReported := true, persistErrorShown := !saved.2 }

/-- The guarded `try`/`except`/`finally` body behind the generate button
(src/podmate.py lines 384-458): loader selection by filename extension, text
extraction, chain selection by word count, summarization, primary TTS with
gTTS fallback (the fallback target path obtained by `.replace(".wav",
".mp3")`), playback, success message, `save_podcast`, session append; any
escaped exception is caught and shown; the `finally` removes the temp
file. -/
def pipelineCore (db : DB) (session : List SessionEntry) (username : String)
    (user_id now : Nat) (inp : PipelineInput) (env : Env) : Outcome :=
  let loader := selectLoader inp.fileName
  match extractOf env loader with
    | none =>
      { dbAfter := db, sessionAfter := session,
        tempCreated := true, tempDeleted := true,
        loaderUsed := some loader, errorReported := true }
    | some text =>
      let chain := if pyWordCount text < 5000 then ChainType.stuff
                   else ChainType.mapReduce
      match env.summarize with
      | none =>
        { dbAfter := db, sessionAfter := session,
          tempCreated := true, tempDeleted := true,
          loaderUsed := some loader, summarizerCalled := true,
          usedChain := some chain, errorReported := true }
      | some summary =>
        let wavPath := audioWavPath username env.timestamp
        if env.primaryTTS then
          finishSuccess db session user_id now inp.fileName loader chain
            summary wavPath 0 none env.saveRaises
        else if env.fallbackTTS then
          finishSuccess db session user_id now inp.fileName loader chain
            summary (pyReplace wavPath ".wav" ".mp3") 1 (some summary)
            env.saveRaises
        else
          { dbAfter := db, sessionAfter := session,
            tempCreated := true, tempDeleted := true,
            loaderUsed := some loader, summarizerCalled := true,
            usedChain := some chain,
            primaryTTSCalls := 1, fallbackTTSCalls := 1,
            primaryInput := some summary, fallbackInput := some summary,
            errorReported := true }

/-- The podcast-generator tab body (src/podmate.py lines 362-458) for one
uploaded file, with the current database state, session list, logged-in user
and the oracle environment.  Branch by branch: MIME sniff rejection with
`st.stop()` (before the temp file is written); temp-file write; size
rejection with `os.unlink` and `st.stop()`; nothing further unless the
generate button was clicked (the temp file is then left behind); otherwise
the guarded pipeline body `pipelineCore`. -/
def runPipeline (db : DB) (session : List SessionEntry) (username : String)
    (user_id now : Nat) (inp : PipelineInput) (env : Env) : Outcome :=
  if !mimeAccepted inp.sniffedMime then
    { dbAfter := db, sessionAfter := session,
      tempCreated := false, tempDeleted := false,
      mimeRejected := true, errorReported := true }
  else if 10 * 1024 * 1024 < inp.sizeBytes then
    { dbAfter := db, sessionAfter := session,
      tempCreated := true, tempDeleted := true,
      sizeRejected := true, errorReported := true }
  else if !inp.generateClicked then
    { dbAfter := db, sessionAfter := session,
      tempCreated := true, tempDeleted := false }
  else
    pipelineCore db session username user_id now inp env

/-- Under an accepted MIME type, an in-bound size and a clicked generate
button, the tab body runs the guarded pipeline. -/
theorem runPipeline_eq_core (db : DB) (session : List SessionEntry)
    (username : String) (user_id now : Nat) (inp : PipelineInput) (env : Env)
    (hm : mimeAccepted inp.sniffedMime = true)
    (hsize : inp.sizeBytes ≤ 10 * 1024 * 1024)
    (hclick : inp.generateClicked = true) :
    runPipeline db session username user_id now inp env =
      pipelineCore db session username user_id now inp env := by
  unfold runPipeline
  rw [hm, hclick]
  rw [if_neg (by simp), if_neg (by omega), if_neg (by simp)]

/-- Helper: `find?` skips a prefix in which no element satisfies the
predicate. -/
theorem find?_append_of_any_eq_false {α : Type} {q : α → Bool}
    {l₁ l₂ : List α} (h : l₁.any q = false) :
    (l₁ ++ l₂).find? q = l₂.find? q := by
  induction l₁ with
  | nil => rfl
  | cons a t ih =>
    simp only [List.any_cons, Bool.or_eq_false_iff] at h
    simp only [List.cons_append, List.find?_cons, h.1, ih h.2]

/-- Claim C1: if registration of `username` with `password` succeeds, then
authenticating with the same username and password succeeds and returns the
identifier stored for that username (the freshly assigned id). -/
theorem register_then_authenticate_roundtrip (db : DB)
    (username password : String) (salt now : Nat)
    (h : (register_user db username password salt now).2.1 = true) :
    authenticate_user (register_user db username password salt now).1
        username password = (true, some db.nextUserId) ∧
      (register_user db username password salt now).1.users.find?
          (fun r => r.username == username) =
        some { id := db.nextUserId, username := username,
               password := hash_password password salt, created_at := now } := by
  by_cases hdup : db.users.any (fun r => r.username == username) = true
  · simp [register_user, hdup] at h
  · have hdup' : db.users.any (fun r => r.username == username) = false :=
      Bool.eq_false_iff.mpr hdup
    have hreg : register_user db username password salt now =
        ({ db with
            users := db.users ++
              [{ id := db.nextUserId, username := username,
                 password := hash_password password salt, created_at := now }],
            nextUserId := db.nextUserId + 1 },
         true, "Registration successful") := by
      unfold register_user
      rw [hdup']
      simp
    have hfind :
        (db.users ++
          [{ id := db.nextUserId, username := username,
             password := hash_password password salt,
             created_at := now : UserRow }]).find?
            (fun r => r.username == username) =
          some { id := db.nextUserId, username := username,
                 password := hash_password password salt, created_at := now } := by
      rw [find?_append_of_any_eq_false hdup']
      simp [List.find?_cons]
    constructor
    · rw [hreg]
      simp only [authenticate_user]
      rw [hfind]
      simp [verify_password, bcryptCheckpw, bcryptHashpw, hash_password]
    · rw [hreg]
      exact hfind

/-- Witness for C1 at a concrete store. -/
theorem register_then_authenticate_roundtrip_witness :
    authenticate_user
        (register_user { users := [], podcasts := [], nextUserId := 1,
                         nextPodcastId := 1 } "alice" "secret1" 42 100).1
        "alice" "secret1" = (true, some 1) :=
  (register_then_authenticate_roundtrip
    { users := [], podcasts := [], nextUserId := 1, nextPodcastId := 1 }
    "alice" "secret1" 42 100 (by decide)).1

/-- Claim C2: when a user with the requested username already exists,
`register_user` fails with the duplicate-username message and the database
(including the existing account's id, username and password hash) is
unchanged. -/
theorem register_duplicate_username (db : DB) (username password : String)
    (salt now : Nat)
    (h : db.users.any (fun r => r.username == username) = true) :
    register_user db username password salt now =
      (db, false, "Username already exists") := by
  simp [register_user, h]

/-- Witness for C2 at a concrete store. -/
theorem register_duplicate_username_witness :
    register_user
        { users := [{ id := 1, username := "alice",
                      password := bcryptHashpw "secret1" 42, created_at := 100 }],
          podcasts := [], nextUserId := 2, nextPodcastId := 1 }
        "alice" "other99" 7 200 =
      ({ users := [{ id := 1, username := "alice",
                     password := bcryptHashpw "secret1" 42, created_at := 100 }],
         podcasts := [], nextUserId := 2, nextPodcastId := 1 },
       false, "Username already exists") :=
  register_duplicate_username _ "alice" "other99" 7 200 (by decide)

/-- Claim C3: whenever the username is absent, or the supplied password does
not verify against the stored hash of the user found for that username,
`authenticate_user` returns failure with no user identifier. -/
theorem authenticate_wrong_password (db : DB) (username password : String)
    (h : ∀ r, db.users.find? (fun u => u.username == username) = some r →
      verify_password password r.password = false) :
    authenticate_user db username password = (false, none) := by
  unfold authenticate_user
  cases hfind : db.users.find? (fun u => u.username == username) with
  | none => rfl
  | some r => simp [h r hfind]

/-- Witness for C3: a store holding `alice`, probed with a close but wrong
password. -/
theorem authenticate_wrong_password_witness :
    authenticate_user
        { users := [{ id := 1, username := "alice",
                      password := bcryptHashpw "secret1" 42, created_at := 100 }],
          podcasts := [], nextUserId := 2, nextPodcastId := 1 }
        "alice" "secret2" = (false, none) :=
  authenticate_wrong_password _ "alice" "secret2" (by decide)

/-- A store in which user 7 owns two podcast rows carrying the same
CURRENT_TIMESTAMP value (two inserts within the same clock second). -/
def dbTiedTimestamps : DB :=
  { users := [{ id := 7, username := "alice",
                password := bcryptHashpw "secret1" 42, created_at := 100 }],
    podcasts :=
      [{ id := 1, user_id := 7, title := "t1", summary := "s1",
         audio_path := "a1", created_at := 500 },
       { id := 2, user_id := 7, title := "t2", summary := "s2",
         audio_path := "a2", created_at := 500 }],
    nextUserId := 8, nextPodcastId := 3 }

/-- Counterexample to claim C4 as stated: with two records of the same user
created at the same timestamp, the sequence returned by `get_user_podcasts`
is not strictly newest-first (strictly decreasing in creation time). -/
theorem get_user_podcasts_not_strictly_sorted :
    ¬ (get_user_podcasts dbTiedTimestamps 7).Pairwise
        (fun a b => b.created_at < a.created_at) := by
  intro h
  have : (get_user_podcasts dbTiedTimestamps 7) =
      [{ title := "t1", summary := "s1", audio := "a1", created_at := 500 },
       { title := "t2", summary := "s2", audio := "a2", created_at := 500 }] := by
    rfl
  rw [this] at h
  simp [List.pairwise_cons] at h

/-- Scanning a list that ends in `".wav"` and replacing every occurrence of
`".wav"` by `".mp3"` yields a list ending in `'3'`: a match can never
straddle the final occurrence, because no character of `"wav"` equals
`'.'`. -/
theorem pyReplaceAux_wav_getLast :
    ∀ (fuel : Nat) (l : List Char), (l ++ ['.', 'w', 'a', 'v']).length ≤ fuel →
      (pyReplaceAux ['.', 'w', 'a', 'v'] ['.', 'm', 'p', '3'] fuel
          (l ++ ['.', 'w', 'a', 'v'])).getLast? = some '3' := by
  intro fuel
  induction fuel with
  | zero => intro l hl; simp at hl
  | succ fuel ih =>
    intro l hl
    match l with
    | [] =>
      simp [pyReplaceAux]
    | c :: l' =>
      rw [List.cons_append, pyReplaceAux]
      by_cases htake :
          (c :: (l' ++ ['.', 'w', 'a', 'v'])).take 4 = ['.', 'w', 'a', 'v']
      · rw [if_pos ⟨by simp, htake⟩]
        match l' with
        | [] => simp at htake
        | [d] => simp at htake
        | [d, e] => simp at htake
        | d :: e :: f :: rest =>
          have hre := ih rest (by simp at hl ⊢; omega)
          have hne : pyReplaceAux ['.', 'w', 'a', 'v'] ['.', 'm', 'p', '3'] fuel
              (rest ++ ['.', 'w', 'a', 'v']) ≠ [] := by
            intro h0; rw [h0] at hre; cases hre
          rw [show List.drop (List.length ['.', 'w', 'a', 'v'] - 1)
              ((d :: e :: f :: rest) ++ ['.', 'w', 'a', 'v']) =
              rest ++ ['.', 'w', 'a', 'v'] from rfl]
          rw [List.getLast?_append_of_ne_nil _ hne]
          exact hre
      · rw [if_neg (fun h => htake h.2)]
        have hre := ih l' (by simp at hl ⊢; omega)
        have hne : pyReplaceAux ['.', 'w', 'a', 'v'] ['.', 'm', 'p', '3'] fuel
            (l' ++ ['.', 'w', 'a', 'v']) ≠ [] := by
          intro h0; rw [h0] at hre; cases hre
        rw [show (c :: pyReplaceAux ['.', 'w', 'a', 'v'] ['.', 'm', 'p', '3'] fuel
              (l' ++ ['.', 'w', 'a', 'v'])) =
            [c] ++ pyReplaceAux ['.', 'w', 'a', 'v'] ['.', 'm', 'p', '3'] fuel
              (l' ++ ['.', 'w', 'a', 'v']) from rfl]
        rw [List.getLast?_append_of_ne_nil _ hne]
        exact hre

/-- Replacing `".wav"` by `".mp3"` in a path that ends in `".wav"` changes
the path: the result ends in `'3'` while the original ends in `'v'`. -/
theorem pyReplace_wav_mp3_ne (s : String) :
    pyReplace (s ++ ".wav") ".wav" ".mp3" ≠ s ++ ".wav" := by
  intro heq
  have hdata : (s ++ ".wav").data = s.data ++ ['.', 'w', 'a', 'v'] := by
    rw [String.data_append]
  have h3 : (pyReplace (s ++ ".wav") ".wav" ".mp3").data.getLast? = some '3' := by
    show (pyReplaceAux (".wav" : String).data (".mp3" : String).data
        (s ++ ".wav").data.length (s ++ ".wav").data).getLast? = some '3'
    rw [show (".wav" : String).data = ['.', 'w', 'a', 'v'] from rfl,
      show (".mp3" : String).data = ['.', 'm', 'p', '3'] from rfl, hdata]
    exact pyReplaceAux_wav_getLast _ s.data (le_refl _)
  have hv : (s ++ ".wav").data.getLast? = some 'v' := by
    rw [hdata, List.getLast?_append_of_ne_nil _ (by simp)]
    rfl
  rw [heq, hv] at h3
  cases h3

/-- Claim C4 (amended): `get_user_podcasts` returns exactly the projections of
the rows owned by the given user (a permutation of the filtered table, so
never another user's records), ordered newest-first, i.e. non-increasing in
creation time; records sharing a creation timestamp may appear in either
order. -/
theorem get_user_podcasts_exact_and_newest_first (db : DB) (user_id : Nat) :
    (get_user_podcasts db user_id).Perm
        ((db.podcasts.filter (fun r => r.user_id == user_id)).map podcastView) ∧
      (get_user_podcasts db user_id).Pairwise newestFirst :=
  ⟨List.perm_insertionSort newestFirst _,
   List.sorted_insertionSort newestFirst _⟩

/-- The guarded pipeline body never reports a MIME rejection: that rejection
happens before it (src/podmate.py lines 364-369). -/
theorem pipelineCore_mimeRejected (db : DB) (session : List SessionEntry)
    (username : String) (user_id now : Nat) (inp : PipelineInput) (env : Env) :
    (pipelineCore db session username user_id now inp env).mimeRejected =
      false := by
  simp only [pipelineCore]
  cases extractOf env (selectLoader inp.fileName) with
  | none => rfl
  | some text =>
    cases env.summarize with
    | none => rfl
    | some summary =>
      cases env.primaryTTS <;> cases env.fallbackTTS <;>
        simp [finishSuccess]

/-- The guarded pipeline body always uses the loader selected from the
filename (src/podmate.py lines 387-394). -/
theorem pipelineCore_loaderUsed (db : DB) (session : List SessionEntry)
    (username : String) (user_id now : Nat) (inp : PipelineInput) (env : Env) :
    (pipelineCore db session username user_id now inp env).loaderUsed =
      some (selectLoader inp.fileName) := by
  simp only [pipelineCore]
  cases extractOf env (selectLoader inp.fileName) with
  | none => rfl
  | some text =>
    cases env.summarize with
    | none => rfl
    | some summary =>
      cases env.primaryTTS <;> cases env.fallbackTTS <;>
        simp [finishSuccess]

/-- Claim C5: on a clicked invocation that passed the MIME and size gates, the
temp file is deleted on every exit path; and if text extraction, summarization
or audio synthesis (primary and fallback both) fails, then no podcast record
is persisted, the session is unchanged, an error is reported and no success is
reported. -/
theorem pipeline_step_failure_aborts (db : DB) (session : List SessionEntry)
    (username : String) (user_id now : Nat) (inp : PipelineInput) (env : Env)
    (hm : mimeAccepted inp.sniffedMime = true)
    (hsize : inp.sizeBytes ≤ 10 * 1024 * 1024)
    (hclick : inp.generateClicked = true)
    (hfail : extractOf env (selectLoader inp.fileName) = none ∨
      env.summarize = none ∨
      (env.primaryTTS = false ∧ env.fallbackTTS = false)) :
    (runPipeline db session username user_id now inp env).tempDeleted = true ∧
      (runPipeline db session username user_id now inp env).dbAfter = db ∧
      (runPipeline db session username user_id now inp env).sessionAfter =
        session ∧
      (runPipeline db session username user_id now inp env).savedPath = none ∧
      (runPipeline db session username user_id now inp env).successReported =
        false ∧
      (runPipeline db session username user_id now inp env).errorReported =
        true := by
  rw [runPipeline_eq_core db session username user_id now inp env hm hsize
    hclick]
  simp only [pipelineCore]
  cases hext : extractOf env (selectLoader inp.fileName) with
  | none => simp
  | some text =>
    cases hsum : env.summarize with
    | none => simp
    | some summary =>
      rcases hfail with h | h | ⟨hp, hf⟩
      · rw [hext] at h; cases h
      · rw [hsum] at h; cases h
      · rw [hp, hf]; simp

/-- Witness for C5: summarization raises on a small accepted text file. -/
theorem pipeline_step_failure_aborts_witness :
    (runPipeline { users := [], podcasts := [], nextUserId := 1,
                   nextPodcastId := 1 } [] "alice" 1 900
        { fileName := "notes.txt", sniffedMime := "text/plain",
          sizeBytes := 1000, generateClicked := true }
        { pdfExtract := none, txtRead := some "hello world",
          summarize := none, primaryTTS := true, fallbackTTS := true,
          saveRaises := false, timestamp := "20250101_120000" }).errorReported =
      true :=
  (pipeline_step_failure_aborts _ _ "alice" 1 900 _ _ (by decide) (by decide)
    rfl (Or.inr (Or.inl rfl))).2.2.2.2.2

/-- Claim C6: an upload larger than 10 MB that passed the MIME sniff is
rejected before any summarization or synthesis call: the temp file is deleted,
an error is reported, and neither the summarizer nor a TTS provider is
invoked; nothing is persisted. -/
theorem pipeline_size_rejection (db : DB) (session : List SessionEntry)
    (username : String) (user_id now : Nat) (inp : PipelineInput) (env : Env)
    (hm : mimeAccepted inp.sniffedMime = true)
    (hbig : 10 * 1024 * 1024 < inp.sizeBytes) :
    runPipeline db session username user_id now inp env =
      { dbAfter := db, sessionAfter := session,
        tempCreated := true, tempDeleted := true,
        sizeRejected := true, errorReported := true } := by
  unfold runPipeline
  rw [hm]
  rw [if_neg (by simp), if_pos hbig]

/-- Witness for C6: a 20 MB plain-text upload. -/
theorem pipeline_size_rejection_witness :
    runPipeline { users := [], podcasts := [], nextUserId := 1,
                  nextPodcastId := 1 } [] "alice" 1 900
        { fileName := "big.txt", sniffedMime := "text/plain",
          sizeBytes := 20 * 1024 * 1024, generateClicked := true }
        { pdfExtract := none, txtRead := some "hello world",
          summarize := some "a summary", primaryTTS := true,
          fallbackTTS := true, saveRaises := false,
          timestamp := "20250101_120000" } =
      { dbAfter := { users := [], podcasts := [], nextUserId := 1,
                     nextPodcastId := 1 },
        sessionAfter := [], tempCreated := true, tempDeleted := true,
        sizeRejected := true, errorReported := true } :=
  pipeline_size_rejection _ _ "alice" 1 900 _ _ (by decide) (by decide)

/-- Claim C7: when the primary TTS raises and the gTTS fallback succeeds, the
fallback is invoked exactly once, on the same summary text, and the audio path
that is played back and persisted in the new podcast record is the fallback's
`.mp3` output, which differs from the primary's `.wav` path. -/
theorem pipeline_fallback_output_persisted (db : DB)
    (session : List SessionEntry) (username : String) (user_id now : Nat)
    (inp : PipelineInput) (env : Env) (text summary : String)
    (hm : mimeAccepted inp.sniffedMime = true)
    (hsize : inp.sizeBytes ≤ 10 * 1024 * 1024)
    (hclick : inp.generateClicked = true)
    (hext : extractOf env (selectLoader inp.fileName) = some text)
    (hsum : env.summarize = some summary)
    (hp : env.primaryTTS = false) (hf : env.fallbackTTS = true)
    (hsave : env.saveRaises = false) :
    (runPipeline db session username user_id now inp env).fallbackTTSCalls =
        1 ∧
      (runPipeline db session username user_id now inp env).fallbackInput =
        some summary ∧
      (runPipeline db session username user_id now inp env).audioPlayed =
        some (pyReplace (audioWavPath username env.timestamp) ".wav" ".mp3") ∧
      (runPipeline db session username user_id now inp env).dbAfter.podcasts =
        db.podcasts ++
          [{ id := db.nextPodcastId, user_id := user_id,
             title := inp.fileName, summary := summary,
             audio_path :=
               pyReplace (audioWavPath username env.timestamp) ".wav" ".mp3",
             created_at := now }] ∧
      pyReplace (audioWavPath username env.timestamp) ".wav" ".mp3" ≠
        audioWavPath username env.timestamp := by
  rw [runPipeline_eq_core db session username user_id now inp env hm hsize
    hclick]
  simp only [pipelineCore]
  rw [hext]
  simp only []
  rw [hsum, hp, hf]
  refine ⟨?_, ?_, ?_, ?_, ?_⟩
  · simp [finishSuccess]
  · simp [finishSuccess]
  · simp [finishSuccess]
  · simp [finishSuccess, save_podcast, hsave]
  · unfold audioWavPath
    exact pyReplace_wav_mp3_ne _

/-- Witness for C7 on a concrete invocation with a failing primary TTS. -/
theorem pipeline_fallback_output_persisted_witness :
    (runPipeline { users := [], podcasts := [], nextUserId := 1,
                   nextPodcastId := 1 } [] "alice" 1 900
        { fileName := "notes.txt", sniffedMime := "text/plain",
          sizeBytes := 1000, generateClicked := true }
        { pdfExtract := none, txtRead := some "hello world",
          summarize := some "a summary", primaryTTS := false,
          fallbackTTS := true, saveRaises := false,
          timestamp := "20250101_120000" }).fallbackTTSCalls = 1 :=
  (pipeline_fallback_output_persisted _ _ "alice" 1 900 _ _ "hello world"
    "a summary" (by decide) (by decide) rfl (by decide) rfl rfl rfl rfl).1

/-- Claim C8: on an invocation whose text extraction produced `text`, the
summarization strategy is the single-pass `stuff` chain exactly when the
Python word count of `text` is strictly below 5000, and the `map_reduce`
chain exactly when it is at or above 5000. -/
theorem pipeline_chain_selection_threshold (db : DB)
    (session : List SessionEntry) (username : String) (user_id now : Nat)
    (inp : PipelineInput) (env : Env) (text : String)
    (hm : mimeAccepted inp.sniffedMime = true)
    (hsize : inp.sizeBytes ≤ 10 * 1024 * 1024)
    (hclick : inp.generateClicked = true)
    (hext : extractOf env (selectLoader inp.fileName) = some text) :
    (runPipeline db session username user_id now inp env).usedChain =
        some (if pyWordCount text < 5000 then ChainType.stuff
              else ChainType.mapReduce) ∧
      ((runPipeline db session username user_id now inp env).usedChain =
          some ChainType.stuff ↔ pyWordCount text < 5000) := by
  have hchain : (runPipeline db session username user_id now inp env).usedChain
      = some (if pyWordCount text < 5000 then ChainType.stuff
              else ChainType.mapReduce) := by
    rw [runPipeline_eq_core db session username user_id now inp env hm hsize
      hclick]
    simp only [pipelineCore]
    rw [hext]
    cases env.summarize with
    | none => rfl
    | some summary =>
      cases env.primaryTTS <;> cases env.fallbackTTS <;>
        simp [finishSuccess]
  refine ⟨hchain, ?_⟩
  rw [hchain]
  by_cases hwc : pyWordCount text < 5000 <;> simp [hwc]

/-- Witness for C8: an eleven-word text selects the single-pass chain. -/
theorem pipeline_chain_selection_threshold_witness :
    (runPipeline { users := [], podcasts := [], nextUserId := 1,
                   nextPodcastId := 1 } [] "alice" 1 900
        { fileName := "notes.txt", sniffedMime := "text/plain",
          sizeBytes := 1000, generateClicked := true }
        { pdfExtract := none, txtRead := some "hello world",
          summarize := some "a summary", primaryTTS := true,
          fallbackTTS := true, saveRaises := false,
          timestamp := "20250101_120000" }).usedChain =
      some (if pyWordCount "hello world" < 5000 then ChainType.stuff
            else ChainType.mapReduce) :=
  (pipeline_chain_selection_threshold _ _ "alice" 1 900 _ _ "hello world"
    (by decide) (by decide) rfl (by decide)).1

/-- Counterexample to claim C9 as stated: two uploads, both content-sniffed as
`text/plain` (and hence both accepted), are routed to different loaders purely
because of their filename extensions; the one named `.pdf` is handed to the
PDF loader although its sniffed type is `text/plain`.  Loader selection
therefore does trust the extension alone. -/
theorem loader_selected_by_extension_cex :
    mimeAccepted "text/plain" = true ∧
      (runPipeline { users := [], podcasts := [], nextUserId := 1,
                     nextPodcastId := 1 } [] "alice" 1 900
          { fileName := "notes.pdf", sniffedMime := "text/plain",
            sizeBytes := 1000, generateClicked := true }
          { pdfExtract := none, txtRead := some "hello world",
            summarize := some "a summary", primaryTTS := true,
            fallbackTTS := true, saveRaises := false,
            timestamp := "20250101_120000" }).loaderUsed =
        some Loader.pdfLoader ∧
      (runPipeline { users := [], podcasts := [], nextUserId := 1,
                     nextPodcastId := 1 } [] "alice" 1 900
          { fileName := "notes.txt", sniffedMime := "text/plain",
            sizeBytes := 1000, generateClicked := true }
          { pdfExtract := none, txtRead := some "hello world",
            summarize := some "a summary", primaryTTS := true,
            fallbackTTS := true, saveRaises := false,
            timestamp := "20250101_120000" }).loaderUsed =
        some Loader.directRead := by
  refine ⟨by decide, ?_, ?_⟩ <;> decide

/-- Claim C9 (amended): acceptance is decided solely by the content-sniffed
MIME type — the upload is rejected exactly when the sniffed type is neither
`application/pdf` nor `text/plain`, whatever the filename; but loader
selection is by filename extension: a clicked, accepted, in-bound invocation
uses the PDF loader exactly when the filename ends in `.pdf`, and the direct
text read otherwise. -/
theorem pipeline_accept_by_mime_loader_by_extension (db : DB)
    (session : List SessionEntry) (username : String) (user_id now : Nat)
    (inp : PipelineInput) (env : Env) :
    ((runPipeline db session username user_id now inp env).mimeRejected =
        !mimeAccepted inp.sniffedMime) ∧
      (mimeAccepted inp.sniffedMime = true →
        inp.sizeBytes ≤ 10 * 1024 * 1024 →
        inp.generateClicked = true →
        (runPipeline db session username user_id now inp env).loaderUsed =
          some (if pyEndsWith inp.fileName ".pdf" then Loader.pdfLoader
                else Loader.directRead)) := by
  constructor
  · unfold runPipeline
    cases hmm : mimeAccepted inp.sniffedMime with
    | false => simp
    | true =>
      rw [if_neg (by simp)]
      by_cases hbig : 10 * 1024 * 1024 < inp.sizeBytes
      · rw [if_pos hbig]
        rfl
      · rw [if_neg hbig]
        cases hclick : inp.generateClicked with
        | false => simp
        | true =>
          rw [if_neg (by simp)]
          exact pipelineCore_mimeRejected db session username user_id now inp
            env
  · intro hm hsize hclick
    rw [runPipeline_eq_core db session username user_id now inp env hm hsize
      hclick]
    exact pipelineCore_loaderUsed db session username user_id now inp env

/-- Witness for C9 (amended) at a concrete accepted `.pdf` upload. -/
theorem pipeline_accept_by_mime_loader_by_extension_witness :
    (runPipeline { users := [], podcasts := [], nextUserId := 1,
                   nextPodcastId := 1 } [] "alice" 1 900
        { fileName := "paper.pdf", sniffedMime := "application/pdf",
          sizeBytes := 1000, generateClicked := true }
        { pdfExtract := some "pdf text", txtRead := none,
          summarize := some "a summary", primaryTTS := true,
          fallbackTTS := true, saveRaises := false,
          timestamp := "20250101_120000" }).loaderUsed =
      some (if pyEndsWith "paper.pdf" ".pdf" then Loader.pdfLoader
            else Loader.directRead) :=
  (pipeline_accept_by_mime_loader_by_extension _ _ "alice" 1 900 _ _).2
    (by decide) (by decide) rfl

/-- Claim C10: when synthesis succeeds but the database insert raises inside
`save_podcast`, the error is only displayed: success is still reported, the
entry is still appended to the session list, and the podcast store is left
without the record — the session list and the store diverge. -/
theorem session_entry_despite_save_failure (db : DB)
    (session : List SessionEntry) (username : String) (user_id now : Nat)
    (inp : PipelineInput) (env : Env) (text summary : String)
    (hm : mimeAccepted inp.sniffedMime = true)
    (hsize : inp.sizeBytes ≤ 10 * 1024 * 1024)
    (hclick : inp.generateClicked = true)
    (hext : extractOf env (selectLoader inp.fileName) = some text)
    (hsum : env.summarize = some summary)
    (htts : env.primaryTTS = true ∨ env.fallbackTTS = true)
    (hsave : env.saveRaises = true) :
    (runPipeline db session username user_id now inp env).successReported =
        true ∧
      (runPipeline db session username user_id now inp env).persistErrorShown =
        true ∧
      (runPipeline db session username user_id now inp env).errorReported =
        false ∧
      (runPipeline db session username user_id now inp env).dbAfter = db ∧
      ∃ e : SessionEntry,
        (runPipeline db session username user_id now inp env).sessionAfter =
            session ++ [e] ∧
          e.title = inp.fileName ∧ e.summary = summary := by
  rw [runPipeline_eq_core db session username user_id now inp env hm hsize
    hclick]
  simp only [pipelineCore]
  rw [hext]
  simp only []
  rw [hsum]
  cases hpt : env.primaryTTS with
  | true =>
    refine ⟨by simp [finishSuccess, save_podcast, hsave], ?_, ?_, ?_, ?_⟩
    · simp [finishSuccess, save_podcast, hsave]
    · simp [finishSuccess]
    · simp [finishSuccess, save_podcast, hsave]
    · exact ⟨{ title := inp.fileName, summary := summary,
               audio := audioWavPath username env.timestamp },
        by simp [finishSuccess], rfl, rfl⟩
  | false =>
    have hf : env.fallbackTTS = true := by
      rcases htts with h | h
      · rw [hpt] at h; cases h
      · exact h
    rw [hf]
    refine ⟨by simp [finishSuccess, save_podcast, hsave], ?_, ?_, ?_, ?_⟩
    · simp [finishSuccess, save_podcast, hsave]
    · simp [finishSuccess]
    · simp [finishSuccess, save_podcast, hsave]
    · exact ⟨{ title := inp.fileName, summary := summary,
               audio := pyReplace (audioWavPath username env.timestamp)
                 ".wav" ".mp3" },
        by simp [finishSuccess], rfl, rfl⟩

/-- Witness for C10: a successful synthesis whose insert raises. -/
theorem session_entry_despite_save_failure_witness :
    (runPipeline { users := [], podcasts := [], nextUserId := 1,
                   nextPodcastId := 1 } [] "alice" 1 900
        { fileName := "notes.txt", sniffedMime := "text/plain",
          sizeBytes := 1000, generateClicked := true }
        { pdfExtract := none, txtRead := some "hello world",
          summarize := some "a summary", primaryTTS := true,
          fallbackTTS := true, saveRaises := true,
          timestamp := "20250101_120000" }).successReported = true :=
  (session_entry_despite_save_failure _ _ "alice" 1 900 _ _ "hello world"
    "a summary" (by decide) (by decide) rfl (by decide) rfl (Or.inl rfl)
    rfl).1

end Podmate
